import Mathlib

/-
Verification of the two testable components of the HyprV waybar scripts:
the moon-phase calculator of waybar/scripts/waybar-lunar.py and the
snapshot cache / location-resolution flow of waybar/scripts/waybar-wttr-c.py.
Time instants and ephemeris quantities are modelled as rationals; the
pickled cache file and the exceptions the scripts catch are modelled as
explicit inductive states.
-/

namespace HyprV

/- Part 1: embedding of waybar/scripts/waybar-lunar.py -/

/-- Observer location record as stored in the weather cache: the keys
city, latitude and longitude of the Python dict. -/
structure Location where
  city : String
  latitude : ℚ
  longitude : ℚ
deriving DecidableEq

/-- Outcome of reading the pickled weather cache file in get_location:
the file may not exist, the read may succeed with a (weather, location)
pair, or the read may raise. -/
inductive CacheRead (W : Type) where
  | absent : CacheRead W
  | ok : W → Location → CacheRead W
  | failed : CacheRead W
deriving DecidableEq

/-- The Mumbai fallback dict returned by the except handler of
get_location (waybar-lunar.py line 27). -/
def mumbaiDefault : Location :=
  { city := "Mumbai", latitude := 19.0760, longitude := 72.8777 }

/-- get_location (waybar-lunar.py lines 18-27): returns the cached
location when the read succeeds, the Mumbai default when the read
raises, and falls off the end of the try block (Python implicit None)
when the cache file does not exist. -/
def get_location {W : Type} : CacheRead W → Option Location
  | .absent => none
  | .ok _ loc => some loc
  | .failed => some mumbaiDefault

/-- The quantities get_current_moon_phase obtains from the ephem library
at observer.date: next/previous new moon, next/previous full moon, and
moon.phase (illuminated percentage). The ephem computations themselves
are external; their results are abstract inputs here. -/
structure EphemInputs where
  date : ℚ
  nnm : ℚ
  pnm : ℚ
  nfm : ℚ
  pfm : ℚ
  moonPhase : ℚ
deriving DecidableEq

/-- days_to_full of waybar-lunar.py line 126. -/
def days_to_full (e : EphemInputs) : ℚ := e.nfm - e.date

/-- days_from_full of waybar-lunar.py line 127. -/
def days_from_full (e : EphemInputs) : ℚ := e.date - e.pfm

/-- The waxing test of waybar-lunar.py line 130:
is_waxing = days_to_full < days_from_full. -/
def is_waxing (e : EphemInputs) : Bool :=
  decide (days_to_full e < days_from_full e)

/-- The phase-percentage bucketing of get_current_moon_phase
(waybar-lunar.py lines 135-153), returning the emoji and phase name. -/
def phase_bucket (phase_percent : ℚ) (w : Bool) : String × String :=
  if phase_percent < 6.25 then ("🌑", "New Moon")
  else if phase_percent > 93.75 then ("🌕", "Full Moon")
  else if w then
    if phase_percent < 43.75 then ("🌒", "Waxing Crescent")
    else if phase_percent < 56.25 then ("🌓", "First Quarter")
    else ("🌔", "Waxing Gibbous")
  else
    if phase_percent < 43.75 then ("🌘", "Waning Crescent")
    else if phase_percent < 56.25 then ("🌗", "Last Quarter")
    else ("🌖", "Waning Gibbous")

/-- get_current_moon_phase (waybar-lunar.py lines 105-153) on the
abstract ephem inputs: computes the waxing flag from the full-moon
distances and buckets moon.phase. -/
def get_current_moon_phase (e : EphemInputs) : String × String :=
  phase_bucket e.moonPhase (is_waxing e)

/-- The Python errors the lunar script can hit when the location is
None: subscripting None raises TypeError. -/
inductive PyError where
  | typeError
deriving DecidableEq

/-- get_current_moon_phase including its call to get_location (lines
105-111): observer.lat = str(location["latitude"]) raises TypeError
when get_location returned None; otherwise the phase computation on the
ephem inputs proceeds. -/
def get_current_moon_phase_run {W : Type} (r : CacheRead W) (e : EphemInputs) :
    Except PyError (String × String) :=
  match get_location r with
  | none => .error .typeError
  | some _ => .ok (get_current_moon_phase e)

/-- Modelled from the spec: the ephem library functions next_full_moon
and next_new_moon are not part of this repository. Following the specification
step 1 ("compute the next full/new moon instant relative to the
instant") they are modelled as the next occurrence strictly after `t`
of a periodic event with period `P` and phase offset `c`. -/
def next_event (P c t : ℚ) : ℚ := c + P * (⌊(t - c) / P⌋ + 1)

/-- get_moon_phases (waybar-lunar.py lines 29-43) on the modelled
ephemeris: returns (next full moon, next new moon) for observer.date
`t`, where full moons have phase offset `cf` and new moons `cn` in a
cycle of period `P`. -/
def get_moon_phases (P cf cn t : ℚ) : ℚ × ℚ :=
  (next_event P cf t, next_event P cn t)

/-- get_moon_phases including its call to get_location (lines 29-34):
subscripting a None location raises TypeError before any ephem call. -/
def get_moon_phases_run {W : Type} (r : CacheRead W) (P cf cn t : ℚ) :
    Except PyError (ℚ × ℚ) :=
  match get_location r with
  | none => .error .typeError
  | some _ => .ok (get_moon_phases P cf cn t)

/-- The eight phase names of the data model. -/
def phaseNames : List String :=
  ["New Moon", "Waxing Crescent", "First Quarter", "Waxing Gibbous",
   "Full Moon", "Waning Gibbous", "Last Quarter", "Waning Crescent"]

/-- The phase-name table of the specification, written from its interval wording:
p < 6.25 is New Moon, p > 93.75 is Full Moon, [6.25,43.75) is
Waxing/Waning Crescent, [43.75,56.25) is First/Last Quarter and
[56.25,93.75] is Waxing/Waning Gibbous. -/
def spec_phase_table (p : ℚ) (w : Bool) : String :=
  if p < 6.25 then "New Moon"
  else if p > 93.75 then "Full Moon"
  else if 6.25 ≤ p ∧ p < 43.75 then
    if w then "Waxing Crescent" else "Waning Crescent"
  else if 43.75 ≤ p ∧ p < 56.25 then
    if w then "First Quarter" else "Last Quarter"
  else if w then "Waxing Gibbous" else "Waning Gibbous"

/-- One addend per row of the specification bucketing table; no overlap and no
gap over [0,100] means exactly one row applies, i.e. this count is 1. -/
def bucket_count (p : ℚ) : ℕ :=
  (if p < 6.25 then 1 else 0) + (if 93.75 < p then 1 else 0) +
  (if 6.25 ≤ p ∧ p < 43.75 then 1 else 0) +
  (if 43.75 ≤ p ∧ p < 56.25 then 1 else 0) +
  (if 56.25 ≤ p ∧ p ≤ 93.75 then 1 else 0)

/-- C1: for every illumination percentage p in [0,100] and every waxing
flag, the bucketing of get_current_moon_phase returns exactly one of
the eight phase names, it is the one the specification table gives (so p = 50
yields First Quarter when waxing and Last Quarter when waning), and
exactly one row of the table applies: no overlap, no gap. -/
theorem phase_bucketing_matches_spec (p : ℚ) (w : Bool)
    (h0 : 0 ≤ p) (h1 : p ≤ 100) :
    (phase_bucket p w).2 = spec_phase_table p w ∧
    (phase_bucket p w).2 ∈ phaseNames ∧
    bucket_count p = 1 := by
  unfold phase_bucket spec_phase_table bucket_count phaseNames
  rcases lt_or_le p 6.25 with hA | hA
  · have a2 : ¬p > 93.75 := by linarith
    have a3 : ¬(6.25 ≤ p ∧ p < 43.75) := by rintro ⟨h, _⟩; linarith
    have a4 : ¬(43.75 ≤ p ∧ p < 56.25) := by rintro ⟨h, _⟩; linarith
    have a5 : ¬(56.25 ≤ p ∧ p ≤ 93.75) := by rintro ⟨h, _⟩; linarith
    refine ⟨?_, ?_, ?_⟩ <;> simp [hA, a2, a3, a4, a5]
  · rcases lt_or_le (93.75 : ℚ) p with hB | hB
    · have a1 : ¬p < 6.25 := by linarith
      have a3 : ¬(6.25 ≤ p ∧ p < 43.75) := by rintro ⟨_, h⟩; linarith
      have a4 : ¬(43.75 ≤ p ∧ p < 56.25) := by rintro ⟨_, h⟩; linarith
      have a5 : ¬(56.25 ≤ p ∧ p ≤ 93.75) := by rintro ⟨_, h⟩; linarith
      refine ⟨?_, ?_, ?_⟩ <;>
        simp [a1, show p > 93.75 from hB, a3, a4, a5]
    · have a2 : ¬p > 93.75 := by linarith
      rcases lt_or_le p 43.75 with hC | hC
      · have a1 : ¬p < 6.25 := by linarith
        have a3 : 6.25 ≤ p ∧ p < 43.75 := ⟨hA, hC⟩
        have a4 : ¬(43.75 ≤ p ∧ p < 56.25) := by rintro ⟨h, _⟩; linarith
        have a5 : ¬(56.25 ≤ p ∧ p ≤ 93.75) := by rintro ⟨h, _⟩; linarith
        cases w <;> refine ⟨?_, ?_, ?_⟩ <;>
          simp [a1, a2, hC, a3, a4, a5]
      · rcases lt_or_le p 56.25 with hD | hD
        · have a1 : ¬p < 6.25 := by linarith
          have aC : ¬p < 43.75 := by linarith
          have a3 : ¬(6.25 ≤ p ∧ p < 43.75) := by rintro ⟨_, h⟩; linarith
          have a4 : 43.75 ≤ p ∧ p < 56.25 := ⟨hC, hD⟩
          have a5 : ¬(56.25 ≤ p ∧ p ≤ 93.75) := by rintro ⟨h, _⟩; linarith
          cases w <;> refine ⟨?_, ?_, ?_⟩ <;>
            simp [a1, a2, aC, hD, a3, a4, a5]
        · have a1 : ¬p < 6.25 := by linarith
          have aC : ¬p < 43.75 := by linarith
          have aD : ¬p < 56.25 := by linarith
          have a3 : ¬(6.25 ≤ p ∧ p < 43.75) := by rintro ⟨_, h⟩; linarith
          have a4 : ¬(43.75 ≤ p ∧ p < 56.25) := by rintro ⟨_, h⟩; linarith
          have a5 : 56.25 ≤ p ∧ p ≤ 93.75 := ⟨hD, hB⟩
          cases w <;> refine ⟨?_, ?_, ?_⟩ <;>
            simp [a1, a2, aC, aD, a3, a4, a5]

/-- Witness for the bucketing theorem at the claim at its concrete scenario
p = 50 with is_waxing true. -/
theorem phase_bucketing_matches_spec_witness :
    (0 ≤ (50:ℚ) ∧ (50:ℚ) ≤ 100) ∧
    ((phase_bucket 50 true).2 = spec_phase_table 50 true ∧
     (phase_bucket 50 true).2 ∈ phaseNames ∧
     bucket_count 50 = 1) :=
  ⟨⟨by norm_num, by norm_num⟩,
   phase_bucketing_matches_spec 50 true (by norm_num) (by norm_num)⟩

/-- C7: the waxing flag computed by get_current_moon_phase is true
exactly when the next full moon is nearer in time than the previous
one, i.e. nfm - t < t - pfm. -/
theorem is_waxing_iff_next_full_nearer (e : EphemInputs) :
    is_waxing e = true ↔ e.nfm - e.date < e.date - e.pfm := by
  simp [is_waxing, days_to_full, days_from_full]

/-- Positivity of the period pushes the modelled next event strictly
past the query instant. -/
theorem next_event_gt (P c t : ℚ) (hP : 0 < P) : t < next_event P c t := by
  unfold next_event
  have hf : (t - c) / P < ⌊(t - c) / P⌋ + 1 := Int.lt_floor_add_one _
  have h : t - c < P * (⌊(t - c) / P⌋ + 1) := by
    have := (div_lt_iff₀ hP).mp hf
    linarith [this]
  linarith

/-- C8: get_moon_phases returns strictly future instants: both the next
full moon and the next new moon lie strictly after observer.date. The
ephemeris itself is modelled from the spec as a periodic event with
period P > 0. -/
theorem get_moon_phases_future (P cf cn t : ℚ) (hP : 0 < P) :
    t < (get_moon_phases P cf cn t).1 ∧ t < (get_moon_phases P cf cn t).2 :=
  ⟨next_event_gt P cf t hP, next_event_gt P cn t hP⟩

/-- Witness for the future-instants theorem with a unit period. -/
theorem get_moon_phases_future_witness :
    (0:ℚ) < 1 ∧
    ((5:ℚ) < (get_moon_phases 1 0 (1/2) 5).1 ∧
     (5:ℚ) < (get_moon_phases 1 0 (1/2) 5).2) :=
  ⟨by norm_num, get_moon_phases_future 1 0 (1/2) 5 (by norm_num)⟩

/-- C9: when the weather cache file does not exist, get_location falls
through its try block and returns None (the Mumbai dict is returned
only when the read raises), and every subsequent get_moon_phases or
get_current_moon_phase call fails with a TypeError when it subscripts
the None location. -/
theorem get_location_absent_is_none (W : Type) :
    get_location (CacheRead.absent : CacheRead W) = none ∧
    get_location (CacheRead.failed : CacheRead W) = some mumbaiDefault ∧
    (∀ P cf cn t : ℚ,
      get_moon_phases_run (CacheRead.absent : CacheRead W) P cf cn t =
        Except.error PyError.typeError) ∧
    (∀ e : EphemInputs,
      get_current_moon_phase_run (CacheRead.absent : CacheRead W) e =
        Except.error PyError.typeError) :=
  ⟨rfl, rfl, fun _ _ _ _ => rfl, fun _ => rfl⟩

/-- The claim that a failed location read makes the phase calculator
fail is false: when the cache read raises, get_location silently
substitutes the Mumbai default and get_current_moon_phase succeeds,
here at the concrete ephem inputs (date 0, nnm 15, pnm -15, nfm 15,
pfm -15, moon.phase 3), returning New Moon instead of any error. -/
theorem invalid_location_counterexample :
    get_location (CacheRead.failed : CacheRead Unit) = some mumbaiDefault ∧
    get_current_moon_phase_run (CacheRead.failed : CacheRead Unit)
        ⟨0, 15, -15, 15, -15, 3⟩ = Except.ok ("🌑", "New Moon") := by
  refine ⟨rfl, ?_⟩
  simp [get_current_moon_phase_run, get_location, get_current_moon_phase,
    phase_bucket, is_waxing, days_to_full, days_from_full]
  norm_num

/-- C3 amended: the script never raises an InvalidLocation error. When
the cache read raises, get_location substitutes the Mumbai default and
the phase calculation succeeds for every ephem input; when the cache
file is absent, the calculation fails, but with a TypeError from
subscripting None, not a location error. -/
theorem invalid_location_amended (W : Type) (e : EphemInputs) :
    get_current_moon_phase_run (CacheRead.failed : CacheRead W) e =
      Except.ok (get_current_moon_phase e) ∧
    get_current_moon_phase_run (CacheRead.absent : CacheRead W) e =
      Except.error PyError.typeError :=
  ⟨rfl, rfl⟩

/- Part 2: embedding of waybar/scripts/waybar-wttr-c.py -/

/-- CACHE_DURATION (waybar-wttr-c.py line 91), one hour in seconds. -/
def CACHE_DURATION : ℚ := 3600

/-- State of the cache file at CACHE_FILE: absent, a well-formed
pickled entry whose modification time is its write instant (the script
stores no timestamp in the payload; freshness is judged from st_mtime),
or an existing file whose contents fail to unpickle. -/
inductive CacheFile (α : Type) where
  | absent : CacheFile α
  | entry : α → ℚ → CacheFile α
  | corrupt : ℚ → CacheFile α
deriving DecidableEq

/-- load_cached_data (waybar-wttr-c.py lines 99-109): returns the
pickled payload when the file exists, its age now - mtime is below
CACHE_DURATION and unpickling succeeds; any raised exception is caught
and, like a missing or stale file, yields None. -/
def load_cached_data {α : Type} (now : ℚ) : CacheFile α → Option α
  | .absent => none
  | .corrupt _ => none
  | .entry payload mtime =>
      if now - mtime < CACHE_DURATION then some payload else none

/-- Where a save attempt can fail: it can succeed, raise before the
file is opened (e.g. permission denied on open), or raise midway
through the dump (e.g. disk full) after open with mode "wb" has already
truncated the target in place. -/
inductive SaveOutcome where
  | success : SaveOutcome
  | failAtOpen : SaveOutcome
  | failDuringWrite : SaveOutcome
deriving DecidableEq

/-- save_cached_data (waybar-wttr-c.py lines 111-117): opens CACHE_FILE
itself with mode "wb" (no temporary file, no rename) and pickles the
payload into it; every exception is swallowed by the bare
except-pass. A failure before open leaves the previous file state, a
failure during the dump leaves a truncated (corrupt) file timestamped
now, and success leaves the new entry timestamped now. -/
def save_cached_data {α : Type} (now : ℚ) (payload : α) (o : SaveOutcome)
    (file : CacheFile α) : CacheFile α :=
  match o with
  | .success => .entry payload now
  | .failAtOpen => file
  | .failDuringWrite => .corrupt now

/-- The cache skeleton of the main flow (waybar-wttr-c.py lines
250-291): load the cache; on a hit use the cached payload, otherwise
invoke the fetch and save the result. Returns the payload served, the
fromCache flag, the resulting file state, and how many times the fetch
ran; `fetch` receives the index of the invocation so that invocations
are distinguishable. -/
def getOrFetch {α : Type} (now : ℚ) (file : CacheFile α) (fetch : ℕ → α)
    (o : SaveOutcome) : α × Bool × CacheFile α × ℕ :=
  match load_cached_data now file with
  | some payload => (payload, true, file, 0)
  | none =>
      let payload := fetch 0
      (payload, false, save_cached_data now payload o file, 1)

/-- Two consecutive invocations of the script against an initially
absent cache, the first at t1 and the second at t2, both with a
succeeding save step. Returns the total number of fetch invocations
and, for the second call, the payload, fromCache flag and resulting file
state. The fetch indices of the second call continue after the first. -/
def two_invocations {α : Type} (t1 t2 : ℚ) (fetch : ℕ → α) :
    ℕ × α × Bool × CacheFile α :=
  let r1 := getOrFetch t1 CacheFile.absent fetch SaveOutcome.success
  let r2 := getOrFetch t2 r1.2.2.1 (fun n => fetch (r1.2.2.2 + n))
    SaveOutcome.success
  (r1.2.2.2 + r2.2.2.2, r2.1, r2.2.1, r2.2.2.1)

/-- C2: starting from an absent cache, two invocations within the
freshness window run the fetch exactly once and the second serves the
cached payload; two invocations more than CACHE_DURATION apart run the
fetch in both calls and the second stores a fresh entry timestamped at
its own now t2. -/
theorem cache_round_trip {α : Type} (t1 t2 : ℚ) (fetch : ℕ → α) :
    (t2 - t1 < CACHE_DURATION →
      two_invocations t1 t2 fetch =
        (1, fetch 0, true, CacheFile.entry (fetch 0) t1)) ∧
    (CACHE_DURATION < t2 - t1 →
      two_invocations t1 t2 fetch =
        (2, fetch 1, false, CacheFile.entry (fetch 1) t2)) := by
  constructor <;> intro h <;>
    simp [two_invocations, getOrFetch, load_cached_data, save_cached_data, h,
      not_lt.mpr (le_of_lt h)]

/-- Witness for the cache round trip: a fresh second call 100 seconds
after the first, and a stale second call 4000 seconds after the first,
with fetch n = n over the naturals. -/
theorem cache_round_trip_witness :
    ((100:ℚ) - 0 < CACHE_DURATION ∧
      two_invocations (0:ℚ) 100 (fun n => n) =
        (1, 0, true, CacheFile.entry 0 (0:ℚ))) ∧
    (CACHE_DURATION < (4000:ℚ) - 0 ∧
      two_invocations (0:ℚ) 4000 (fun n => n) =
        (2, 1, false, CacheFile.entry 1 (4000:ℚ))) :=
  ⟨⟨by norm_num [CACHE_DURATION],
    (cache_round_trip 0 100 (fun n => n)).1 (by norm_num [CACHE_DURATION])⟩,
   ⟨by norm_num [CACHE_DURATION],
    (cache_round_trip 0 4000 (fun n => n)).2 (by norm_num [CACHE_DURATION])⟩⟩

/-- C4: a corrupt cache file behaves like an absent one: the unpickling
failure is swallowed, the fetch runs once, the call returns the fetched
payload with fromCache false, and (with a successful save) the
resulting state equals the absent-entry case exactly. -/
theorem corrupt_cache_is_miss {α : Type} (now m : ℚ) (fetch : ℕ → α)
    (o : SaveOutcome) :
    (getOrFetch now (CacheFile.corrupt m) fetch o).1 = fetch 0 ∧
    (getOrFetch now (CacheFile.corrupt m) fetch o).2.1 = false ∧
    (getOrFetch now (CacheFile.corrupt m) fetch o).2.2.2 = 1 ∧
    getOrFetch now (CacheFile.corrupt m) fetch SaveOutcome.success =
      getOrFetch now CacheFile.absent fetch SaveOutcome.success :=
  ⟨rfl, rfl, rfl, rfl⟩

/-- C5: a failing persistence step never fails the call: the payload
and fromCache flag are the same whatever the save outcome, and on a
cache miss the freshly fetched payload is returned even when the write
step fails, with no exception escaping (getOrFetch is total). -/
theorem save_failure_nonfatal {α : Type} (now : ℚ) (file : CacheFile α)
    (fetch : ℕ → α) (o : SaveOutcome) :
    (getOrFetch now file fetch o).1 =
      (getOrFetch now file fetch SaveOutcome.success).1 ∧
    (getOrFetch now file fetch o).2.1 =
      (getOrFetch now file fetch SaveOutcome.success).2.1 ∧
    (load_cached_data now file = none →
      (getOrFetch now file fetch o).1 = fetch 0) := by
  unfold getOrFetch
  cases h : load_cached_data now file with
  | some payload => exact ⟨rfl, rfl, fun hc => by simp at *⟩
  | none => exact ⟨rfl, rfl, fun _ => rfl⟩

/-- Witness for save-failure non-fatality: an absent cache, a write
that fails midway, fetch n = n. -/
theorem save_failure_nonfatal_witness :
    (getOrFetch (0:ℚ) CacheFile.absent (fun n => n)
        SaveOutcome.failDuringWrite).1 =
      (getOrFetch (0:ℚ) CacheFile.absent (fun n => n)
        SaveOutcome.success).1 ∧
    (getOrFetch (0:ℚ) CacheFile.absent (fun n => n)
        SaveOutcome.failDuringWrite).2.1 =
      (getOrFetch (0:ℚ) CacheFile.absent (fun n => n)
        SaveOutcome.success).2.1 ∧
    (load_cached_data (0:ℚ) (CacheFile.absent : CacheFile ℕ) = none →
      (getOrFetch (0:ℚ) CacheFile.absent (fun n => n)
        SaveOutcome.failDuringWrite).1 = 0) :=
  save_failure_nonfatal 0 CacheFile.absent (fun n => n)
    SaveOutcome.failDuringWrite

/-- The atomic-write claim is false: save_cached_data writes straight
into CACHE_FILE, so a dump that fails midway over a previous entry
(payload "old" at mtime 0, new write at 100) leaves a truncated
corrupt file and the previously stored entry is gone. -/
theorem atomic_write_counterexample :
    save_cached_data (100:ℚ) "new" SaveOutcome.failDuringWrite
        (CacheFile.entry "old" 0) = CacheFile.corrupt 100 ∧
    CacheFile.corrupt (100:ℚ) ≠ CacheFile.entry "old" (0:ℚ) :=
  ⟨rfl, fun h => CacheFile.noConfusion h⟩

/-- C6 amended: the writer uses no temporary file and no rename. On
success it replaces the entry in place; a failure before the open
leaves the previous state unchanged; but a failure during the dump
leaves a truncated corrupt file visible at the cache path, losing the
previous entry. No exception escapes the writer. -/
theorem save_direct_write {α : Type} (now : ℚ) (payload : α)
    (file : CacheFile α) :
    save_cached_data now payload SaveOutcome.success file =
      CacheFile.entry payload now ∧
    save_cached_data now payload SaveOutcome.failAtOpen file = file ∧
    save_cached_data now payload SaveOutcome.failDuringWrite file =
      CacheFile.corrupt now :=
  ⟨rfl, rfl, rfl⟩

/-- Result of the IP-geolocation request (waybar-wttr-c.py line 271):
either the parsed location or a raised requests.RequestException whose
str(e) is the carried message. -/
inductive IpResult where
  | ok : Location → IpResult
  | error : String → IpResult
deriving DecidableEq

/-- Which branch of the main flow produced the served location:
the fresh cache hit, WiFi geolocation, IP geolocation, or the
stale-serving fallback inside the IP except handler. -/
inductive LocationSource where
  | fromCache : LocationSource
  | fromWifi : LocationSource
  | fromIp : LocationSource
  | staleServe : LocationSource
deriving DecidableEq

/-- The location-resolution flow of the main try block (waybar-wttr-c.py
lines 250-282): use the cached location on a cache hit, else WiFi
geolocation, else IP geolocation; if the IP request raises, line 277
tests `cached_data and "429" in str(e)` and either serves the stale
cached location or re-raises. The substring test `"429" in str(e)` is
the abstract predicate has429. -/
def resolve_location {α : Type} (has429 : String → Bool)
    (cached_data : Option (α × Location)) (wifi : Option Location)
    (ip : IpResult) : Except String (Location × LocationSource) :=
  match cached_data with
  | some (_, loc) => .ok (loc, .fromCache)
  | none =>
      match wifi with
      | some loc => .ok (loc, .fromWifi)
      | none =>
          match ip with
          | .ok loc => .ok (loc, .fromIp)
          | .error msg =>
              if cached_data.isSome && has429 msg then
                match cached_data with
                | some (_, loc) => .ok (loc, .staleServe)
                | none => .error msg
              else .error msg

/-- C10: the stale-serving fallback in the IP-geolocation except
handler is dead code. The handler runs only on the path where
load_cached_data returned None, so its `cached_data and "429"` test is
always false: no execution serves a location from the stale branch, and
when the handler is reached the exception is re-raised unchanged. -/
theorem stale_serve_unreachable {α : Type} (has429 : String → Bool)
    (cached_data : Option (α × Location)) (wifi : Option Location)
    (ip : IpResult) :
    (∀ loc src, resolve_location has429 cached_data wifi ip =
        Except.ok (loc, src) → src ≠ LocationSource.staleServe) ∧
    (cached_data = none → wifi = none → ∀ msg, ip = IpResult.error msg →
      resolve_location has429 cached_data wifi ip = Except.error msg) := by
  constructor
  · intro loc src h hsrc
    subst hsrc
    rcases cached_data with _ | ⟨w, l⟩ <;>
      rcases wifi with _ | wl <;>
      rcases ip with ipl | msg <;>
      simp [resolve_location] at h
  · rintro rfl rfl msg rfl
    rfl

/-- Witness for the dead stale-serving branch: with a populated cache
the flow serves fromCache (not staleServe) even when the IP error
message contains 429, and with an empty cache the 429 error is
re-raised. -/
theorem stale_serve_unreachable_witness :
    LocationSource.fromCache ≠ LocationSource.staleServe ∧
    resolve_location (fun _ => true) (none : Option (Unit × Location)) none
      (IpResult.error "429") = Except.error "429" :=
  ⟨(stale_serve_unreachable (fun _ => true) (some ((), mumbaiDefault)) none
      (IpResult.error "429")).1 mumbaiDefault LocationSource.fromCache rfl,
   (stale_serve_unreachable (fun _ => true) (none : Option (Unit × Location))
      none (IpResult.error "429")).2 rfl rfl "429" rfl⟩

end HyprV
